/-
  Shallow embedding of the pecanpico10 tracker core.

  The embedding covers:
  * the system-time arithmetic used by the beacon thread (ChibiOS systime,
    32-bit unsigned wrap-around arithmetic),
  * the sensor/status data model of collector.h (dataPoint_t, gpsState_t,
    the BME status bit layout of sys_error),
  * the beacon thread bcnThread as a per-cycle event-trace function,
  * the compile-time default configuration of config.c,
  * the CLI commands readLog, printConfig (frequency resolution),
    debugOnUSB and send_aprs_message.

  C unsigned integers are modelled as Nat with explicit reduction mod 2^32
  where the C code relies on wrap-around; C signed integers are modelled as
  Int with Int.tdiv / Int.tmod (both truncate toward zero, as C99 does).
-/
import Mathlib

namespace Pecan

/-- Size of the systime value space: ChibiOS system time and intervals on this
target are 32-bit unsigned counters that wrap around. -/
def two32 : Nat := 4294967296

/-- Models the ChibiOS macro TIME_S2I, which converts seconds to system-time
ticks. Modelled from the spec: the macro lives in the ChibiOS headers (not
among the sources) and the spec states all beacon intervals in seconds
(cycle=120s, tel_enc_cycle=10800s), so the embedding uses a tick length of
one second and TIME_S2I is the identity on the seconds scale. -/
def TIME_S2I (s : Nat) : Nat := s

/-- Wrap-around addition of a system time and an interval, as performed by the
C expression last_conf_transmission += conf_sram.tel_enc_cycle on unsigned
32-bit operands. -/
def sysAdd (a b : Nat) : Nat := (a + b) % two32

/-- Wrap-around subtraction on 32-bit unsigned system times, as performed by
the C expression chVTGetSystemTime() - conf_sram.tel_enc_cycle. -/
def sysSub (a b : Nat) : Nat := (a + (two32 - b % two32)) % two32

/-- Models chVTTimeElapsedSinceX: the wrap-around difference between the
current system time and a past time stamp. -/
def chVTTimeElapsedSinceX (now last : Nat) : Nat := sysSub now last

/- ===================== collector.h : status bit layout ===================== -/

/-- Width in bits of one BME280 slot status field (collector.h). -/
def BME_STATUS_BITS : Nat := 2

/-- Mask of one BME280 slot status field before shifting (collector.h). -/
def BME_STATUS_MASK : Nat := 0x3

/-- Status value: sensor OK (collector.h). -/
def BME_OK_VALUE : Nat := 0x0

/-- Status value: sensor failed (collector.h). -/
def BME_FAIL_VALUE : Nat := 0x1

/-- Status value: sensor not fitted (collector.h). -/
def BME_NOT_FITTED_VALUE : Nat := 0x2

/-- Mask of all three BME status fields before shifting (collector.h). -/
def BME_ALL_STATUS_MASK : Nat := 0x3F

/-- Shift of the whole BME status group inside sys_error (collector.h). -/
def BME_ALL_STATUS_SHIFT : Nat := 8

/-- Shift of the on-board BME280 (slot i1) status inside sys_error. -/
def BMEI1_STATUS_SHIFT : Nat := BME_ALL_STATUS_SHIFT

/-- Mask of the slot i1 status inside sys_error. -/
def BMEI1_STATUS_MASK : Nat := BME_STATUS_MASK <<< BMEI1_STATUS_SHIFT

/-- Shift of the first external BME280 (slot e1) status inside sys_error. -/
def BMEE1_STATUS_SHIFT : Nat := BMEI1_STATUS_SHIFT + BME_STATUS_BITS

/-- Mask of the slot e1 status inside sys_error. -/
def BMEE1_STATUS_MASK : Nat := BME_STATUS_MASK <<< BMEE1_STATUS_SHIFT

/-- Intended value of the C macro BMEE2_STATUS_SHIFT. The macro text in
collector.h line 23 reads BMEI1_STATUS_SHIFT + BME_STATUS)BITS, which is a
syntax error (a stray closing parenthesis where an underscore belongs and a
missing factor of 2); the sys_error documentation block in the same file
assigns bits 12:13 to the BMEe2 status, i.e. the intended definition is
BMEI1_STATUS_SHIFT + 2 * BME_STATUS_BITS. -/
def BMEE2_STATUS_SHIFT_intended : Nat := BMEI1_STATUS_SHIFT + 2 * BME_STATUS_BITS

/-- Mask of the slot e2 status inside sys_error, built from the intended
shift value (the macro itself is malformed in the source). -/
def BMEE2_STATUS_MASK_intended : Nat := BME_STATUS_MASK <<< BMEE2_STATUS_SHIFT_intended

/- ===================== collector.h : data model ===================== -/

/-- GPS acquisition state of a data point (gpsState_t in collector.h). -/
inductive gpsState_t where
  | GPS_LOCKED1
  | GPS_LOCKED2
  | GPS_LOSS
  | GPS_LOWBATT1
  | GPS_LOWBATT2
  | GPS_LOG
  | GPS_OFF
  | GPS_ERROR
  | GPS_FIXED
deriving DecidableEq, Repr

/-- Telemetry snapshot produced by the data collector (dataPoint_t in
collector.h). Unsigned C fields are Nat, signed C fields are Int. -/
structure dataPoint_t where
  adc_vsol : Nat
  adc_vbat : Nat
  pac_vsol : Nat
  pac_vbat : Nat
  pac_pbat : Int
  pac_psol : Int
  light_intensity : Nat
  gps_state : gpsState_t
  gps_sats : Nat
  gps_ttff : Nat
  gps_pdop : Nat
  gps_alt : Nat
  gps_lat : Int
  gps_lon : Int
  sen_i1_press : Nat
  sen_e1_press : Nat
  sen_e2_press : Nat
  sen_i1_temp : Int
  sen_e1_temp : Int
  sen_e2_temp : Int
  sen_i1_hum : Nat
  sen_e1_hum : Nat
  sen_e2_hum : Nat
  dummy2 : Nat
  stm32_temp : Int
  si446x_temp : Int
  reset : Nat
  id : Nat
  gps_time : Nat
  sys_time : Nat
  sys_error : Nat
  gpio : Nat
deriving DecidableEq, Repr

/-- Models the macro hasGPSacquiredLock of collector.h: the GPS has achieved
a lock, whether or not it has since been switched off. -/
def hasGPSacquiredLock (tp : dataPoint_t) : Bool :=
  tp.gps_state = gpsState_t.GPS_LOCKED1 || tp.gps_state = gpsState_t.GPS_LOCKED2

/-- Models isPositionValid, called by bcnThread on the collector snapshot.
Modelled from the spec: the function body lives in collector.c, which is not
among the sources. Per the spec a snapshot is usable for transmission when
the GPS has (or had) a lock, or the position was recovered from the log
ring (gps_state FROM_LOG, i.e. GPS_LOG here), or it is a fixed location
taken from an APRS message (GPS_FIXED). -/
def isPositionValid (tp : dataPoint_t) : Bool :=
  hasGPSacquiredLock tp
    || tp.gps_state = gpsState_t.GPS_LOG
    || tp.gps_state = gpsState_t.GPS_FIXED

/- ===================== APRS packets and radio parameters ===================== -/

/-- APRS display symbol (only SYM_BALLOON occurs in the sources). -/
inductive aprs_sym_t where
  | SYM_BALLOON
deriving DecidableEq, Repr

/-- Radio modulation selector (MOD_AFSK and MOD_2FSK per the spec). -/
inductive mod_t where
  | MOD_AFSK
  | MOD_2FSK
deriving DecidableEq, Repr

/-- Band selector of a dynamic frequency descriptor (spec section 3). -/
inductive FreqBand where
  | APRS_REGIONAL
deriving DecidableEq, Repr

/-- Frequency descriptor of a radio configuration. Modelled from the spec:
a variant Static(hz) or Dynamic(band); a dynamic descriptor resolves through
the geofence against the latest position. -/
inductive FrequencyDescriptor where
  | Static (hz : Nat)
  | Dynamic (band : FreqBand)
deriving DecidableEq, Repr

/-- Models the configuration macro FREQ_APRS_DYNAMIC used in config.c.
Modelled from the spec: the macro itself is defined in a header that is not
among the sources; per the spec it denotes the dynamic APRS-regional
frequency descriptor. -/
def FREQ_APRS_DYNAMIC : FrequencyDescriptor := FrequencyDescriptor.Dynamic FreqBand.APRS_REGIONAL

/-- Abstract APRS packet as assembled by the encoders called from the
sources. The encoder bodies live in aprs.c (not among the sources); each
constructor records the PDU kind and the arguments the call sites pass. -/
inductive packet_t where
  | telemetryConfiguration (src path dest : String) (ty : Nat)
  | positionAndTelemetry (src path : String) (symbol : aprs_sym_t) (dp : dataPoint_t) (aux : Bool)
  | message (src path dest text : String) (ackRequested : Bool)
  | aprsdMessage (src path dest : String)
deriving DecidableEq, Repr

/-- Whether a packet requests an acknowledgment. An APRSD summary is a
tracker-originated message composed with no acknowledgment requested (so
states the comment at the aprs_compose_aprsd_message call site in bcnThread,
and the spec); telemetry-config and position PDUs are not messages and can
never request an acknowledgment. -/
def packet_t.ackRequested : packet_t → Bool
  | packet_t.message _ _ _ _ a => a
  | _ => false

/-- Models aprs_encode_telemetry_configuration(callsign, path, dest, type).
Modelled from the spec: the body is in aprs.c (not among the sources); the
embedding records the PDU kind and the addressing; ty in 0..3 selects
PARM, UNIT, EQNS or BITS. -/
def aprs_encode_telemetry_configuration (src path dest : String) (ty : Nat) : packet_t :=
  packet_t.telemetryConfiguration src path dest ty

/-- Models aprs_encode_position_and_telemetry(callsign, path, symbol, dp, b).
Modelled from the spec: the body is in aprs.c (not among the sources); the
embedding records the addressing, the symbol and the data point; aux is the
final boolean argument of the call site. -/
def aprs_encode_position_and_telemetry (src path : String) (symbol : aprs_sym_t)
    (dp : dataPoint_t) (aux : Bool) : packet_t :=
  packet_t.positionAndTelemetry src path symbol dp aux

/-- Models aprs_compose_aprsd_message(src, path, dest). Modelled from the
spec: the body is in aprs.c (not among the sources); it composes a message
PDU listing the stations heard directly, from src via path addressed to
dest, with no acknowledgment requested. -/
def aprs_compose_aprsd_message (src path dest : String) : packet_t :=
  packet_t.aprsdMessage src path dest

/-- Old-style APRS message configuration used by the CLI command
send_aprs_message. Modelled from the spec: aprs_conf_t is declared in a
header that is not among the sources; per the spec a message encoder needs
the source call sign and the digi path. -/
structure aprs_conf_t where
  callsign : String
  path : String
deriving DecidableEq, Repr

/-- Models aprs_encode_message(conf, dest, text, ack). Modelled from the
spec: the body is in aprs.c (not among the sources); it builds a message PDU
from the configured call sign via the configured path, addressed to dest,
with the given text, requesting an acknowledgment iff ack is set. -/
def aprs_encode_message (c : aprs_conf_t) (dest text : String) (ack : Bool) : packet_t :=
  packet_t.message c.callsign c.path dest text ack

/-- Number of telemetry-configuration PDU kinds. Modelled from the spec:
the macro APRS_NUM_TELEM_GROUPS is defined in aprs.h, which is not among the
sources; per the spec there are four kinds (PARM, UNIT, EQNS, BITS). -/
def APRS_NUM_TELEM_GROUPS : Nat := 4

/- ===================== beacon thread (bcnThread) ===================== -/

/-- Scheduling part of the beacon application configuration, as used through
conf.beacon in bcnThread (the struct declaration is not among the sources;
the fields are taken from the accesses in bcnThread). The sleep
configuration conf.beacon.sleep_conf is only ever handed to p_sleep, whose
outcome the cycle environment supplies, so it carries no modelled fields. -/
structure bcn_thd_conf_t where
  cycle : Nat
  init_delay : Nat
deriving DecidableEq, Repr

/-- Radio part of the beacon application configuration, as used through
conf.radio_conf in bcnThread. -/
structure radio_tx_conf_t where
  freq : FrequencyDescriptor
  pwr : Nat
  mod : mod_t
  cca : Nat
deriving DecidableEq, Repr

/-- Beacon application configuration (bcn_app_conf_t), with the fields the
bcnThread body reads: the scheduling block, the radio block, call sign,
path, symbol and the run_once flag. -/
structure bcn_app_conf_t where
  beacon : bcn_thd_conf_t
  radio_conf : radio_tx_conf_t
  call : String
  path : String
  symbol : aprs_sym_t
  run_once : Bool
deriving DecidableEq, Repr

/-- Base-station block of the non-volatile configuration conf_sram, as used
by bcnThread for addressing the APRSD summary. -/
structure base_conf_t where
  enabled : Bool
  call : String
  path : String
deriving DecidableEq, Repr

/-- The part of the non-volatile configuration conf_sram that bcnThread
reads: the telemetry-configuration interval and the base-station block. -/
structure conf_sram_t where
  tel_enc_cycle : Nat
  base : base_conf_t
deriving DecidableEq, Repr

/-- Observable step of the beacon thread. transmit carries the arguments of
transmitOnRadio(packet, freq, step, chan, pwr, mod, cca); txAllocFail marks
a packet-pool allocation that returned NULL (the thread only logs and goes
on); snapshotRequest is the chMsgSend to the collector thread. -/
inductive BcnEvent where
  | snapshotRequest
  | transmit (p : packet_t) (freq : FrequencyDescriptor) (step chan pwr : Nat)
      (m : mod_t) (cca : Nat)
  | txAllocFail
  | sleepSeconds (s : Nat)
  | waitTrigger (cycle : Nat)
  | threadExit
deriving DecidableEq, Repr

/-- Whether an event is a transmission handed to the radio manager. -/
def isTransmit : BcnEvent → Bool
  | BcnEvent.transmit _ _ _ _ _ _ _ => true
  | _ => false

/-- Whether an event transmits a position+telemetry packet. -/
def isPositionTx : BcnEvent → Bool
  | BcnEvent.transmit (packet_t.positionAndTelemetry _ _ _ _ _) _ _ _ _ _ _ => true
  | _ => false

/-- Whether an event transmits a telemetry-configuration packet. -/
def isTelemConfTx : BcnEvent → Bool
  | BcnEvent.transmit (packet_t.telemetryConfiguration _ _ _ _) _ _ _ _ _ _ => true
  | _ => false

/-- Per-cycle environment of the beacon thread: the outcome of p_sleep on
the sleep configuration, the data point the collector replies with (the
reply is modelled as always present; the source also compares the pointer
against NULL, after having dereferenced it), and the packet-pool outcome of
the n-th allocation site of the cycle (sites 0..3 are the telemetry-config
encodes, site 4 the position encode, site 5 the APRSD compose). -/
structure CycleEnv where
  sleepActive : Bool
  dp : dataPoint_t
  alloc : Nat → Bool

/-- Events of the telemetry-configuration for-loop of bcnThread: for each
type in 0 ..< APRS_NUM_TELEM_GROUPS, encode the config packet (transmit it
when the pool allocation succeeded, else only log), then sleep 5 seconds. -/
def telemetryConfigCycleEvents (conf : bcn_app_conf_t) (alloc : Nat → Bool) : List BcnEvent :=
  (List.range APRS_NUM_TELEM_GROUPS).flatMap (fun ty =>
    (if alloc ty then
      [BcnEvent.transmit (aprs_encode_telemetry_configuration conf.call conf.path conf.call ty)
        conf.radio_conf.freq 0 0 conf.radio_conf.pwr conf.radio_conf.mod conf.radio_conf.cca]
     else [BcnEvent.txAllocFail]) ++ [BcnEvent.sleepSeconds 5])

/-- One iteration of the while(true) loop of bcnThread, as an event trace
plus the updated last_conf_transmission value. Control flow mirrors the
source: request a snapshot from the collector; if p_sleep holds, skip the
transmission block; otherwise, if the position is not valid, sleep 60 s and
continue (skipping the run_once check and waitForTrigger); otherwise run the
telemetry-config block when tel_enc_cycle is non-zero and has elapsed since
last_conf_transmission, then the position transmission, then the APRSD
summary addressed to the base station when enabled and to the own identity
otherwise; finally exit when run_once, else wait for the next trigger. -/
def bcnCycle (conf : bcn_app_conf_t) (sram : conf_sram_t) (env : CycleEnv)
    (last_conf_transmission now : Nat) : List BcnEvent × Nat :=
  if env.sleepActive then
    (BcnEvent.snapshotRequest ::
       (if conf.run_once then [BcnEvent.threadExit]
        else [BcnEvent.waitTrigger conf.beacon.cycle]),
     last_conf_transmission)
  else if isPositionValid env.dp = false then
    ([BcnEvent.snapshotRequest, BcnEvent.sleepSeconds 60], last_conf_transmission)
  else
    let telem :=
      if sram.tel_enc_cycle ≠ 0 ∧
          sram.tel_enc_cycle ≤ chVTTimeElapsedSinceX now last_conf_transmission then
        (telemetryConfigCycleEvents conf env.alloc,
         sysAdd last_conf_transmission sram.tel_enc_cycle)
      else ([], last_conf_transmission)
    let posEvents :=
      if env.alloc APRS_NUM_TELEM_GROUPS then
        [BcnEvent.transmit
           (aprs_encode_position_and_telemetry conf.call conf.path conf.symbol env.dp true)
           conf.radio_conf.freq 0 0 conf.radio_conf.pwr conf.radio_conf.mod conf.radio_conf.cca,
         BcnEvent.sleepSeconds 5]
      else [BcnEvent.txAllocFail]
    let call := if sram.base.enabled then sram.base.call else conf.call
    let path := if sram.base.enabled then sram.base.path else conf.path
    let aprsdEvents :=
      if env.alloc (APRS_NUM_TELEM_GROUPS + 1) then
        [BcnEvent.transmit (aprs_compose_aprsd_message conf.call path call)
           conf.radio_conf.freq 0 0 conf.radio_conf.pwr conf.radio_conf.mod conf.radio_conf.cca,
         BcnEvent.sleepSeconds 5]
      else [BcnEvent.txAllocFail]
    (BcnEvent.snapshotRequest ::
       (telem.1 ++ posEvents ++ aprsdEvents ++
        (if conf.run_once then [BcnEvent.threadExit]
         else [BcnEvent.waitTrigger conf.beacon.cycle])),
     telem.2)

/-- Trace of a run of the beacon loop over a list of cycles, each given by
the system time at its guard evaluation and its environment, threading
last_conf_transmission through. -/
def bcnRun (conf : bcn_app_conf_t) (sram : conf_sram_t) :
    List (Nat × CycleEnv) → Nat → List BcnEvent
  | [], _ => []
  | c :: rest, lc =>
      (bcnCycle conf sram c.2 lc c.1).1 ++
        bcnRun conf sram rest (bcnCycle conf sram c.2 lc c.1).2

/-- Trace of the beacon thread from boot: bcnThread initialises
last_conf_transmission to chVTGetSystemTime() - conf_sram.tel_enc_cycle
(wrap-around subtraction at boot time now0) and then loops. -/
def bcnThreadTrace (conf : bcn_app_conf_t) (sram : conf_sram_t) (now0 : Nat)
    (cycles : List (Nat × CycleEnv)) : List BcnEvent :=
  bcnRun conf sram cycles (sysSub now0 sram.tel_enc_cycle)

/-- The telemetry-configuration group as it appears on the air when all four
pool allocations succeed: the four config packets, each followed by the
5-second spacing sleep. -/
def telemGroupEvents (conf : bcn_app_conf_t) : List BcnEvent :=
  [BcnEvent.transmit (aprs_encode_telemetry_configuration conf.call conf.path conf.call 0)
     conf.radio_conf.freq 0 0 conf.radio_conf.pwr conf.radio_conf.mod conf.radio_conf.cca,
   BcnEvent.sleepSeconds 5,
   BcnEvent.transmit (aprs_encode_telemetry_configuration conf.call conf.path conf.call 1)
     conf.radio_conf.freq 0 0 conf.radio_conf.pwr conf.radio_conf.mod conf.radio_conf.cca,
   BcnEvent.sleepSeconds 5,
   BcnEvent.transmit (aprs_encode_telemetry_configuration conf.call conf.path conf.call 2)
     conf.radio_conf.freq 0 0 conf.radio_conf.pwr conf.radio_conf.mod conf.radio_conf.cca,
   BcnEvent.sleepSeconds 5,
   BcnEvent.transmit (aprs_encode_telemetry_configuration conf.call conf.path conf.call 3)
     conf.radio_conf.freq 0 0 conf.radio_conf.pwr conf.radio_conf.mod conf.radio_conf.cca,
   BcnEvent.sleepSeconds 5]

/- ===================== config.c : compile-time defaults ===================== -/

/-- Camera resolution selector (the two values used in the sources). -/
inductive resolution_t where
  | RES_QVGA
  | RES_VGA
deriving DecidableEq, Repr

/-- Models the macro CYCLE_CONTINUOUSLY of the configuration headers.
Modelled from the spec: the macro is not among the sources; continuous
cycling is encoded as the interval value 0. -/
def CYCLE_CONTINUOUSLY : Nat := 0

/-- Thread scheduling block of a config.c entry (active flag and cycle). -/
structure thread_conf_t where
  active : Bool
  cycle : Nat
deriving DecidableEq, Repr

/-- Radio block of a config.c entry (power, frequency descriptor,
modulation, preamble length). -/
structure radio_conf_t where
  pwr : Nat
  freq : FrequencyDescriptor
  mod : mod_t
  preamble : Nat
deriving DecidableEq, Repr

/-- Position transmission thread configuration (pos_pri / pos_sec in
config.c). -/
structure pos_conf_t where
  thread_conf : thread_conf_t
  radio_conf : radio_conf_t
  call : String
  path : String
  symbol : aprs_sym_t
  tel_enc_cycle : Nat
deriving DecidableEq, Repr

/-- Image transmission thread configuration (img_pri / img_sec in
config.c). -/
structure img_conf_t where
  thread_conf : thread_conf_t
  radio_conf : radio_conf_t
  call : String
  path : String
  res : resolution_t
  quality : Nat
  buf_size : Nat
deriving DecidableEq, Repr

/-- Log transmission thread configuration (log in config.c). -/
structure log_conf_t where
  thread_conf : thread_conf_t
  radio_conf : radio_conf_t
  call : String
  path : String
deriving DecidableEq, Repr

/-- Receiver thread configuration (rx in config.c). -/
structure rx_conf_t where
  thread_conf : thread_conf_t
  radio_conf : radio_conf_t
  call : String
  path : String
  symbol : aprs_sym_t
deriving DecidableEq, Repr

/-- Top-level compile-time configuration (conf_t, initialised in
config.c). -/
structure conf_t where
  pos_pri : pos_conf_t
  pos_sec : pos_conf_t
  img_pri : img_conf_t
  img_sec : img_conf_t
  log : log_conf_t
  rx : rx_conf_t
  rssi : Nat
  dig_active : Bool
  keep_cam_switched_on : Bool
  gps_on_vbat : Nat
  gps_off_vbat : Nat
  gps_onper_vbat : Nat
deriving DecidableEq, Repr

/-- The compile-time default configuration of config.c. Fields that the C
initialiser leaves unset are zero-initialised (the rx thread cycle). -/
def config : conf_t :=
  { pos_pri :=
      { thread_conf := { active := true, cycle := TIME_S2I 120 }
      , radio_conf :=
          { pwr := 0x7F, freq := FREQ_APRS_DYNAMIC, mod := mod_t.MOD_AFSK, preamble := 200 }
      , call := "DL7AD-12"
      , path := "WIDE1-1"
      , symbol := aprs_sym_t.SYM_BALLOON
      , tel_enc_cycle := TIME_S2I 10800 }
  , pos_sec :=
      { thread_conf := { active := false, cycle := TIME_S2I 120 }
      , radio_conf :=
          { pwr := 0x7F, freq := FREQ_APRS_DYNAMIC, mod := mod_t.MOD_AFSK, preamble := 200 }
      , call := "DL7AD-12"
      , path := "WIDE1-1"
      , symbol := aprs_sym_t.SYM_BALLOON
      , tel_enc_cycle := TIME_S2I 10800 }
  , img_pri :=
      { thread_conf := { active := false, cycle := CYCLE_CONTINUOUSLY }
      , radio_conf :=
          { pwr := 0x7F, freq := FREQ_APRS_DYNAMIC, mod := mod_t.MOD_AFSK, preamble := 200 }
      , call := "DL7AD-12"
      , path := ""
      , res := resolution_t.RES_QVGA
      , quality := 4
      , buf_size := 32 * 1024 }
  , img_sec :=
      { thread_conf := { active := false, cycle := CYCLE_CONTINUOUSLY }
      , radio_conf :=
          { pwr := 0x7F, freq := FREQ_APRS_DYNAMIC, mod := mod_t.MOD_AFSK, preamble := 200 }
      , call := "DL7AD-14"
      , path := ""
      , res := resolution_t.RES_VGA
      , quality := 4
      , buf_size := 64 * 1024 }
  , log :=
      { thread_conf := { active := false, cycle := TIME_S2I 120 }
      , radio_conf :=
          { pwr := 0x7F, freq := FREQ_APRS_DYNAMIC, mod := mod_t.MOD_AFSK, preamble := 200 }
      , call := "DL7AD-12"
      , path := "WIDE1-1" }
  , rx :=
      { thread_conf := { active := false, cycle := 0 }
      , radio_conf :=
          { pwr := 0x7F, freq := FREQ_APRS_DYNAMIC, mod := mod_t.MOD_AFSK, preamble := 200 }
      , call := "DL7AD-14"
      , path := "WIDE1-1"
      , symbol := aprs_sym_t.SYM_BALLOON }
  , rssi := 0x4F
  , dig_active := false
  , keep_cam_switched_on := false
  , gps_on_vbat := 5000
  , gps_off_vbat := 5000
  , gps_onper_vbat := 5000 }

/- ============ old-style configuration and CLI commands (commands.c) ============ -/

/-- Kind tag of an old-style frequency configuration, as tested by
printConfig (config[id].frequency.type == FREQ_STATIC). FREQ_APRS_REGION is
the dynamic, geofence-resolved kind; modelled from the spec (the enum is
declared in a header that is not among the sources, and the spec names
exactly the variants Static and Dynamic(APRS_REGIONAL)). -/
inductive freq_type_t where
  | FREQ_STATIC
  | FREQ_APRS_REGION
deriving DecidableEq, Repr

/-- Old-style frequency configuration: kind tag plus the stored frequency
in Hz, as accessed by printConfig (frequency.type, frequency.hz). -/
structure freq_conf_t where
  type : freq_type_t
  hz : Nat
deriving DecidableEq, Repr

/-- The frequency value printed by printConfig for a configuration entry:
when the descriptor kind is FREQ_STATIC the stored hz field is used as is
and getFrequency is never consulted; otherwise getFrequency resolves the
current APRS regional frequency from the latest position. getFrequency
lives in geofence.c (not among the sources) and is therefore passed as a
function argument. -/
def printConfigFrequencyHz (getFrequency : freq_conf_t → Nat) (fc : freq_conf_t) : Nat :=
  if fc.type = freq_type_t.FREQ_STATIC then fc.hz else getFrequency fc

/-- Old-style per-slot configuration entry (config[id] in the CLI command
file): the fields the commands read. The aprs_conf block is handed to
aprs_encode_message by send_aprs_message. -/
structure old_conf_t where
  power : Nat
  frequency : freq_conf_t
  modulation : mod_t
  init_delay : Nat
  packet_spacing : Nat
  wdg_timeout : Nat
  aprs_conf : aprs_conf_t
deriving DecidableEq, Repr

/-- Old-style transmission request, the argument tuple of
transmitOnRadio(packet, frequency, power, modulation) as called by
send_aprs_message. -/
structure radioTxReq where
  packet : packet_t
  frequency : freq_conf_t
  power : Nat
  modulation : mod_t
deriving DecidableEq, Repr

/-- Models the CLI command debugOnUSB. The command output is the list of
printed lines (line terminators dropped); the returned Bool is the value of
the global debug_on_usb after the call. With no argument the usage text is
printed and the global is left unchanged; otherwise the global is assigned
the C truth value of atoi(argv[0]) (atoi is libc and passed as a function
argument). -/
def debugOnUSB (atoi : String → Int) (debug_on_usb : Bool) (args : List String) :
    Bool × List String :=
  match args with
  | [] =>
      (debug_on_usb,
       ["Argument missing!", "Argument 1: 1 for switch on, 0 for switch off"])
  | a :: _ => (atoi a != 0, [])

/-- Models the CLI command send_aprs_message: with fewer than two arguments
it prints the usage text and returns without building a packet; otherwise
it encodes a message from config[2].aprs_conf to argv[0] with text argv[1]
and no acknowledgment request, and hands it to transmitOnRadio with
config[2].frequency, power 127 and MOD_AFSK. The result is the printed
lines and the list of transmission requests issued. -/
def send_aprs_message (cfg : Nat → old_conf_t) (args : List String) :
    List String × List radioTxReq :=
  match args with
  | dest :: msg :: _ =>
      (["Destination: " ++ dest, "Message: " ++ msg, "Message sent!"],
       [{ packet := aprs_encode_message (cfg 2).aprs_conf dest msg false
        , frequency := (cfg 2).frequency
        , power := 127
        , modulation := mod_t.MOD_AFSK }])
  | _ =>
      (["Argument missing!", "Argument 1: Destination", "Argument 2: Message"], [])

/- ===================== readLog (commands.c) ===================== -/

/-- One printed record line of readLog: the values substituted into the
chprintf format string, in order (the first %08x argument, the slot's RAM
address, is a memory address and is not modelled). Integer division and
remainder follow C semantics: Int.tdiv and Int.tmod truncate toward zero. -/
structure logLine where
  id : Nat
  gps_time : Nat
  lat_int : Int
  lat_frac : Int
  lon_int : Int
  lon_frac : Int
  alt : Nat
  sats : Nat
  ttff : Nat
  vbat_v : Nat
  vbat_mv : Nat
  vsol_v : Nat
  vsol_mv : Nat
  pbat : Int
  press_int : Nat
  press_frac : Nat
  temp_int : Int
  temp_frac : Int
  hum_int : Nat
  hum_frac : Nat
deriving DecidableEq, Repr

/-- The argument values readLog prints for one non-erased log slot,
computed exactly as in the chprintf call. -/
def recordLine (tp : dataPoint_t) : logLine :=
  { id := tp.id
  , gps_time := tp.gps_time
  , lat_int := Int.tdiv tp.gps_lat 10000000
  , lat_frac := Int.tmod ((if 0 < tp.gps_lat then 1 else -1) * Int.tdiv tp.gps_lat 100) 100000
  , lon_int := Int.tdiv tp.gps_lon 10000000
  , lon_frac := Int.tmod ((if 0 < tp.gps_lon then 1 else -1) * Int.tdiv tp.gps_lon 100) 100000
  , alt := tp.gps_alt
  , sats := tp.gps_sats
  , ttff := tp.gps_ttff
  , vbat_v := tp.adc_vbat / 1000
  , vbat_mv := tp.adc_vbat % 1000
  , vsol_v := tp.adc_vsol / 1000
  , vsol_mv := tp.adc_vsol % 1000
  , pbat := tp.pac_pbat
  , press_int := tp.sen_i1_press / 10
  , press_frac := tp.sen_i1_press % 10
  , temp_int := Int.tdiv tp.sen_i1_temp 100
  , temp_frac := Int.tmod tp.sen_i1_temp 100
  , hum_int := tp.sen_i1_hum / 10
  , hum_frac := tp.sen_i1_hum % 10 }

/-- Models getLogBuffer: indexed read of the log ring. The log ring content
is modelled as the list of its slots in index order; an index past the end
yields NULL (none), which terminates the readLog loop. -/
def getLogBuffer (log : List dataPoint_t) (i : Nat) : Option dataPoint_t :=
  log.get? i

/-- The readLog loop from slot index i: iterate upward while getLogBuffer
returns a slot, printing a record line exactly for slots whose id differs
from the erased sentinel 0xFFFFFFFF. -/
def readLogFrom (log : List dataPoint_t) (i : Nat) : List logLine :=
  match hg : getLogBuffer log i with
  | none => []
  | some tp =>
      (if tp.id ≠ 0xFFFFFFFF then [recordLine tp] else []) ++ readLogFrom log (i + 1)
termination_by log.length - i
decreasing_by
  simp only [getLogBuffer] at hg
  have hlen : i < log.length := by
    by_contra hc
    push_neg at hc
    rw [List.get?_eq_none.mpr hc] at hg
    exact absurd hg (by simp)
  omega

/-- Models the CLI command readLog: the record lines printed after the CSV
header line (the header itself is a constant string and is not part of the
record output). The loop starts at slot index 0. -/
def readLog (log : List dataPoint_t) : List logLine :=
  readLogFrom log 0

/- ===================== concrete sample values ===================== -/

/-- Sample data point with a locked GPS state, used to instantiate the
beacon theorems at concrete inputs. -/
def dpValidW : dataPoint_t :=
  { adc_vsol := 4100
  , adc_vbat := 3900
  , pac_vsol := 4050
  , pac_vbat := 3850
  , pac_pbat := -120
  , pac_psol := 150
  , light_intensity := 100
  , gps_state := gpsState_t.GPS_LOCKED1
  , gps_sats := 7
  , gps_ttff := 30
  , gps_pdop := 40
  , gps_alt := 500
  , gps_lat := 377749000
  , gps_lon := -1224194000
  , sen_i1_press := 1013250
  , sen_e1_press := 0
  , sen_e2_press := 0
  , sen_i1_temp := 2150
  , sen_e1_temp := 0
  , sen_e2_temp := 0
  , sen_i1_hum := 55
  , sen_e1_hum := 0
  , sen_e2_hum := 0
  , dummy2 := 0
  , stm32_temp := 2300
  , si446x_temp := 2400
  , reset := 1
  , id := 42
  , gps_time := 1234567
  , sys_time := 120
  , sys_error := 0
  , gpio := 0 }

/-- Sample data point with an invalid position (GPS loss). -/
def dpInvalidW : dataPoint_t :=
  { dpValidW with gps_state := gpsState_t.GPS_LOSS }

/-- Sample beacon application configuration. -/
def confW : bcn_app_conf_t :=
  { beacon := { cycle := 120, init_delay := 0 }
  , radio_conf :=
      { freq := FREQ_APRS_DYNAMIC, pwr := 127, mod := mod_t.MOD_AFSK, cca := 0x4F }
  , call := "DL7AD-12"
  , path := "WIDE1-1"
  , symbol := aprs_sym_t.SYM_BALLOON
  , run_once := false }

/-- Sample non-volatile configuration with a 10800 s telemetry cycle and
the base station disabled. -/
def sramW : conf_sram_t :=
  { tel_enc_cycle := 10800
  , base := { enabled := false, call := "DL7AD", path := "WIDE2-1" } }

/-- Sample non-volatile configuration with telemetry configuration
transmission disabled (tel_enc_cycle = 0). -/
def sramZeroW : conf_sram_t :=
  { tel_enc_cycle := 0
  , base := { enabled := false, call := "DL7AD", path := "WIDE2-1" } }

/-- Sample transmitting cycle environment (awake, valid position, all pool
allocations succeed). -/
def envW : CycleEnv :=
  { sleepActive := false, dp := dpValidW, alloc := fun _ => true }

/-- Sample cycle environment whose snapshot carries no valid position. -/
def envInvalidW : CycleEnv :=
  { sleepActive := false, dp := dpInvalidW, alloc := fun _ => true }

/-- Sample old-style configuration entry for the CLI theorems. -/
def oldConfW : old_conf_t :=
  { power := 127
  , frequency := { type := freq_type_t.FREQ_STATIC, hz := 144390000 }
  , modulation := mod_t.MOD_AFSK
  , init_delay := 0
  , packet_spacing := 0
  , wdg_timeout := 60
  , aprs_conf := { callsign := "DL7AD-12", path := "WIDE1-1" } }

/- ===================== helper lemmas ===================== -/

/-- Membership in an if-then-else of lists is membership in one branch. -/
lemma mem_ite_elim {α : Type} {x : α} {c : Prop} [Decidable c] {l1 l2 : List α}
    (h : x ∈ if c then l1 else l2) : x ∈ l1 ∨ x ∈ l2 := by
  split at h
  · exact Or.inl h
  · exact Or.inr h

/-- At the first guard evaluation after boot, the elapsed time since the
initial last_conf_transmission value (boot time minus tel_enc_cycle) is at
least tel_enc_cycle, provided time is monotone from boot and the sum does
not wrap the 32-bit counter. -/
lemma elapsed_init (tel now0 now : Nat) (h3 : now0 ≤ now)
    (h4 : now + tel < now0 + two32) :
    tel ≤ chVTTimeElapsedSinceX now (sysSub now0 tel) := by
  unfold chVTTimeElapsedSinceX sysSub two32 at *
  omega

/-- When every pool allocation succeeds, the telemetry-config for-loop
produces exactly the four-packet group with its 5-second spacings. -/
lemma telem_all_alloc (conf : bcn_app_conf_t) (alloc : Nat → Bool)
    (h : ∀ i, alloc i = true) :
    telemetryConfigCycleEvents conf alloc = telemGroupEvents conf := by
  simp [telemetryConfigCycleEvents, telemGroupEvents, APRS_NUM_TELEM_GROUPS,
    List.range_succ, h]

/-- Trace of a fully transmitting beacon cycle: awake, valid position, all
allocations succeed, the telemetry guard holds and run_once is off. -/
lemma bcnCycle_transmit (conf : bcn_app_conf_t) (sram : conf_sram_t) (env : CycleEnv)
    (lc now : Nat) (hs : env.sleepActive = false) (hv : isPositionValid env.dp = true)
    (ha : ∀ i, env.alloc i = true)
    (h0 : sram.tel_enc_cycle ≠ 0)
    (hg : sram.tel_enc_cycle ≤ chVTTimeElapsedSinceX now lc)
    (hr : conf.run_once = false) :
    bcnCycle conf sram env lc now =
      (BcnEvent.snapshotRequest ::
        (telemGroupEvents conf ++
         [BcnEvent.transmit
            (aprs_encode_position_and_telemetry conf.call conf.path conf.symbol env.dp true)
            conf.radio_conf.freq 0 0 conf.radio_conf.pwr conf.radio_conf.mod conf.radio_conf.cca,
          BcnEvent.sleepSeconds 5,
          BcnEvent.transmit
            (aprs_compose_aprsd_message conf.call
              (if sram.base.enabled then sram.base.path else conf.path)
              (if sram.base.enabled then sram.base.call else conf.call))
            conf.radio_conf.freq 0 0 conf.radio_conf.pwr conf.radio_conf.mod conf.radio_conf.cca,
          BcnEvent.sleepSeconds 5,
          BcnEvent.waitTrigger conf.beacon.cycle]),
       sysAdd lc sram.tel_enc_cycle) := by
  rw [bcnCycle]
  simp [hs, hv, ha, h0, hg, hr, telem_all_alloc conf env.alloc ha]

/-- A cycle in which p_sleep holds or the position is invalid leaves
last_conf_transmission unchanged and transmits neither a position packet
nor a telemetry-config packet. -/
lemma bcnCycle_skip (conf : bcn_app_conf_t) (sram : conf_sram_t) (env : CycleEnv)
    (lc now : Nat)
    (h : env.sleepActive = true ∨ isPositionValid env.dp = false) :
    (bcnCycle conf sram env lc now).2 = lc ∧
    ∀ e ∈ (bcnCycle conf sram env lc now).1,
      isPositionTx e = false ∧ isTelemConfTx e = false := by
  by_cases hs : env.sleepActive
  · cases hro : conf.run_once <;>
      refine ⟨by simp [bcnCycle, hs, hro], ?_⟩ <;>
      · intro e he
        simp [bcnCycle, hs, hro] at he
        rcases he with he | he <;> subst he <;> simp [isPositionTx, isTelemConfTx]
  · have hv : isPositionValid env.dp = false := by
      rcases h with h | h
      · exact absurd h hs
      · exact h
    refine ⟨by simp [bcnCycle, hs, hv], ?_⟩
    intro e he
    simp [bcnCycle, hs, hv] at he
    rcases he with he | he <;> subst he <;> simp [isPositionTx, isTelemConfTx]

/-- A run whose leading cycles all skip (asleep or no valid position)
contributes a prefix with no position transmission and hands the initial
last_conf_transmission value on unchanged. -/
lemma bcnRun_skip_prefix (conf : bcn_app_conf_t) (sram : conf_sram_t)
    (pre rest : List (Nat × CycleEnv)) (lc : Nat)
    (h : ∀ c ∈ pre, c.2.sleepActive = true ∨ isPositionValid c.2.dp = false) :
    ∃ tr, bcnRun conf sram (pre ++ rest) lc = tr ++ bcnRun conf sram rest lc ∧
      ∀ e ∈ tr, isPositionTx e = false := by
  induction pre generalizing lc with
  | nil => exact ⟨[], by simp [bcnRun], by simp⟩
  | cons c pre ih =>
    have hc := h c (by simp)
    have hskip := bcnCycle_skip conf sram c.2 lc c.1 hc
    obtain ⟨tr, htr, hno⟩ := ih lc (fun d hd => h d (by simp [hd]))
    refine ⟨(bcnCycle conf sram c.2 lc c.1).1 ++ tr, ?_, ?_⟩
    · simp [bcnRun, hskip.1, htr]
    · intro e he
      rcases List.mem_append.mp he with h2 | h2
      · exact (hskip.2 e h2).1
      · exact hno e h2

/-- With tel_enc_cycle zero, no single cycle ever emits a telemetry-config
transmission. -/
lemma bcnCycle_tel0_no_telem (conf : bcn_app_conf_t) (sram : conf_sram_t) (env : CycleEnv)
    (lc now : Nat) (h : sram.tel_enc_cycle = 0) :
    ∀ e ∈ (bcnCycle conf sram env lc now).1, isTelemConfTx e = false := by
  rw [bcnCycle]
  by_cases hs : env.sleepActive
  · rw [if_pos hs]
    intro e he
    rcases List.mem_cons.mp he with rfl | he
    · rfl
    · rcases mem_ite_elim he with h1 | h1 <;> fin_cases h1 <;> rfl
  · rw [if_neg hs]
    by_cases hv : isPositionValid env.dp = false
    · rw [if_pos hv]
      intro e he
      fin_cases he <;> rfl
    · rw [if_neg hv]
      simp only [h, ne_eq, not_true_eq_false, false_and, if_false, List.nil_append]
      intro e he
      rcases List.mem_cons.mp he with rfl | he
      · rfl
      · rcases List.mem_append.mp he with he | he
        · rcases List.mem_append.mp he with he | he
          · rcases mem_ite_elim he with h1 | h1 <;> fin_cases h1 <;> rfl
          · rcases mem_ite_elim he with h1 | h1 <;> fin_cases h1 <;> rfl
        · rcases mem_ite_elim he with h1 | h1 <;> fin_cases h1 <;> rfl

/-- With tel_enc_cycle zero, a whole beacon run emits no telemetry-config
transmission, from any starting state. -/
lemma bcnRun_tel0_no_telem (conf : bcn_app_conf_t) (sram : conf_sram_t)
    (cycles : List (Nat × CycleEnv)) (lc : Nat) (h : sram.tel_enc_cycle = 0) :
    ∀ e ∈ bcnRun conf sram cycles lc, isTelemConfTx e = false := by
  induction cycles generalizing lc with
  | nil => simp [bcnRun]
  | cons c rest ih =>
    intro e he
    rw [show bcnRun conf sram (c :: rest) lc =
          (bcnCycle conf sram c.2 lc c.1).1 ++
            bcnRun conf sram rest (bcnCycle conf sram c.2 lc c.1).2 from rfl] at he
    rcases List.mem_append.mp he with h1 | h1
    · exact bcnCycle_tel0_no_telem conf sram c.2 lc c.1 h e h1
    · exact ih _ e h1

/-- Trace of a transmitting beacon cycle when tel_enc_cycle is zero:
position and APRSD go out as usual, with no telemetry-config block, and
last_conf_transmission never changes. -/
lemma bcnCycle_tel0_transmit (conf : bcn_app_conf_t) (sram : conf_sram_t) (env : CycleEnv)
    (lc now : Nat) (hs : env.sleepActive = false) (hv : isPositionValid env.dp = true)
    (ha : ∀ i, env.alloc i = true) (h : sram.tel_enc_cycle = 0)
    (hr : conf.run_once = false) :
    bcnCycle conf sram env lc now =
      ([BcnEvent.snapshotRequest,
        BcnEvent.transmit
          (aprs_encode_position_and_telemetry conf.call conf.path conf.symbol env.dp true)
          conf.radio_conf.freq 0 0 conf.radio_conf.pwr conf.radio_conf.mod conf.radio_conf.cca,
        BcnEvent.sleepSeconds 5,
        BcnEvent.transmit
          (aprs_compose_aprsd_message conf.call
            (if sram.base.enabled then sram.base.path else conf.path)
            (if sram.base.enabled then sram.base.call else conf.call))
          conf.radio_conf.freq 0 0 conf.radio_conf.pwr conf.radio_conf.mod conf.radio_conf.cca,
        BcnEvent.sleepSeconds 5,
        BcnEvent.waitTrigger conf.beacon.cycle], lc) := by
  rw [bcnCycle]
  simp [hs, hv, ha, h, hr]

/-- Additional readLog unfolding: past the end of the log, getLogBuffer
returns NULL and the loop stops. -/
lemma readLogFrom_none (log : List dataPoint_t) (i : Nat) (h : log.length ≤ i) :
    readLogFrom log i = [] := by
  rw [readLogFrom]
  rw [show getLogBuffer log i = none from List.get?_eq_none.mpr h]

/-- Additional readLog unfolding: a present slot is printed iff non-erased,
then the loop moves to the next index. -/
lemma readLogFrom_some (log : List dataPoint_t) (i : Nat) (tp : dataPoint_t)
    (h : getLogBuffer log i = some tp) :
    readLogFrom log i =
      (if tp.id ≠ 0xFFFFFFFF then [recordLine tp] else []) ++ readLogFrom log (i + 1) := by
  rw [readLogFrom]
  rw [h]

/-- The readLog loop from index i prints exactly the non-erased slots of
the remaining suffix, in order. -/
lemma readLogFrom_eq (log : List dataPoint_t) : ∀ n i, log.length - i ≤ n →
    readLogFrom log i =
      ((log.drop i).filter (fun tp => tp.id != 0xFFFFFFFF)).map recordLine := by
  intro n
  induction n with
  | zero =>
    intro i hi
    have hlen : log.length ≤ i := by omega
    rw [readLogFrom_none log i hlen, List.drop_eq_nil_of_le hlen]
    rfl
  | succ n ih =>
    intro i hi
    by_cases hlen : i < log.length
    · have hget : getLogBuffer log i = some log[i] := by
        simp [getLogBuffer, List.get?_eq_getElem?, hlen]
      rw [readLogFrom_some log i log[i] hget, ih (i + 1) (by omega),
        List.drop_eq_getElem_cons hlen, List.filter_cons]
      by_cases hid : log[i].id = 0xFFFFFFFF <;> simp [hid]
    · have hlen2 : log.length ≤ i := by omega
      rw [readLogFrom_none log i hlen2, List.drop_eq_nil_of_le hlen2]
      rfl

/- ===================== claim theorems ===================== -/

/-- C1: Within a single boot, the beacon thread emits the telemetry-config
group at least once before any position+telemetry transmission: because
bcnThread initialises last_conf_transmission to the boot time minus
tel_enc_cycle, the elapsed-time guard holds on the first transmitting cycle
(all earlier cycles being asleep or without a valid position), so the trace
splits into a prefix with no position transmission, followed by the
four-packet telemetry-config group, followed by the rest. Premises: the
telemetry cycle is non-zero, system time is monotone from boot and the
32-bit counter does not wrap across the interval, and the packet pool does
not run empty on the first transmitting cycle. -/
theorem bcn_telem_config_before_first_position
    (conf : bcn_app_conf_t) (sram : conf_sram_t) (now0 now : Nat)
    (pre post : List (Nat × CycleEnv)) (env : CycleEnv)
    (hpre : ∀ c ∈ pre, c.2.sleepActive = true ∨ isPositionValid c.2.dp = false)
    (hs : env.sleepActive = false) (hv : isPositionValid env.dp = true)
    (ha : ∀ i, env.alloc i = true) (hr : conf.run_once = false)
    (h0 : sram.tel_enc_cycle ≠ 0)
    (hmono : now0 ≤ now) (hwrap : now + sram.tel_enc_cycle < now0 + two32) :
    ∃ t1 t2, bcnThreadTrace conf sram now0 (pre ++ (now, env) :: post) =
        t1 ++ (telemGroupEvents conf ++ t2) ∧
      ∀ e ∈ t1, isPositionTx e = false := by
  obtain ⟨tr, htr, hno⟩ := bcnRun_skip_prefix conf sram pre ((now, env) :: post)
    (sysSub now0 sram.tel_enc_cycle) hpre
  have hg : sram.tel_enc_cycle ≤
      chVTTimeElapsedSinceX now (sysSub now0 sram.tel_enc_cycle) :=
    elapsed_init sram.tel_enc_cycle now0 now hmono hwrap
  have hcyc := bcnCycle_transmit conf sram env (sysSub now0 sram.tel_enc_cycle) now
    hs hv ha h0 hg hr
  unfold bcnThreadTrace
  rw [htr]
  rw [show bcnRun conf sram ((now, env) :: post) (sysSub now0 sram.tel_enc_cycle) =
        (bcnCycle conf sram env (sysSub now0 sram.tel_enc_cycle) now).1 ++
          bcnRun conf sram post
            (bcnCycle conf sram env (sysSub now0 sram.tel_enc_cycle) now).2 from rfl]
  rw [hcyc]
  refine ⟨tr ++ [BcnEvent.snapshotRequest],
    [BcnEvent.transmit
       (aprs_encode_position_and_telemetry conf.call conf.path conf.symbol env.dp true)
       conf.radio_conf.freq 0 0 conf.radio_conf.pwr conf.radio_conf.mod conf.radio_conf.cca,
     BcnEvent.sleepSeconds 5,
     BcnEvent.transmit
       (aprs_compose_aprsd_message conf.call
         (if sram.base.enabled then sram.base.path else conf.path)
         (if sram.base.enabled then sram.base.call else conf.call))
       conf.radio_conf.freq 0 0 conf.radio_conf.pwr conf.radio_conf.mod conf.radio_conf.cca,
     BcnEvent.sleepSeconds 5,
     BcnEvent.waitTrigger conf.beacon.cycle] ++
      bcnRun conf sram post
        (sysAdd (sysSub now0 sram.tel_enc_cycle) sram.tel_enc_cycle), ?_, ?_⟩
  · simp [telemGroupEvents, List.append_assoc]
  · intro e he
    rcases List.mem_append.mp he with h1 | h1
    · exact hno e h1
    · fin_cases h1
      rfl

/-- C1 witness: a single-cycle boot at time 1000 with the sample
configuration; the telemetry-config group precedes any position packet. -/
theorem bcn_telem_config_before_first_position_witness :
    ∃ t1 t2, bcnThreadTrace confW sramW 1000 ([] ++ (1000, envW) :: []) =
        t1 ++ (telemGroupEvents confW ++ t2) ∧
      ∀ e ∈ t1, isPositionTx e = false :=
  bcn_telem_config_before_first_position confW sramW 1000 1000 [] [] envW
    (by simp) rfl rfl (fun i => rfl) rfl (by decide) (Nat.le_refl 1000) (by decide)

/-- C2: In a beacon cycle in which the sleep condition does not hold, the
snapshot position is valid, the packet pool never runs empty, run_once is
off and tel_enc_cycle is non-zero and has elapsed, the thread transmits, in
order: the four telemetry-configuration packets (types 0..3, i.e. PARM,
UNIT, EQNS, BITS) each followed by a 5-second sleep, then one
position+telemetry packet, then one APRSD message, then waits for the next
cycle trigger; last_conf_transmission advances by tel_enc_cycle. -/
theorem bcn_cycle_transmission_order
    (conf : bcn_app_conf_t) (sram : conf_sram_t) (env : CycleEnv)
    (lc now : Nat) (hs : env.sleepActive = false) (hv : isPositionValid env.dp = true)
    (ha : ∀ i, env.alloc i = true)
    (h0 : sram.tel_enc_cycle ≠ 0)
    (hg : sram.tel_enc_cycle ≤ chVTTimeElapsedSinceX now lc)
    (hr : conf.run_once = false) :
    bcnCycle conf sram env lc now =
      (BcnEvent.snapshotRequest ::
        (telemGroupEvents conf ++
         [BcnEvent.transmit
            (aprs_encode_position_and_telemetry conf.call conf.path conf.symbol env.dp true)
            conf.radio_conf.freq 0 0 conf.radio_conf.pwr conf.radio_conf.mod conf.radio_conf.cca,
          BcnEvent.sleepSeconds 5,
          BcnEvent.transmit
            (aprs_compose_aprsd_message conf.call
              (if sram.base.enabled then sram.base.path else conf.path)
              (if sram.base.enabled then sram.base.call else conf.call))
            conf.radio_conf.freq 0 0 conf.radio_conf.pwr conf.radio_conf.mod conf.radio_conf.cca,
          BcnEvent.sleepSeconds 5,
          BcnEvent.waitTrigger conf.beacon.cycle]),
       sysAdd lc sram.tel_enc_cycle) :=
  bcnCycle_transmit conf sram env lc now hs hv ha h0 hg hr

/-- C2 witness: the sample configuration at system time 20000 with
last_conf_transmission 0 runs the full transmission sequence. -/
theorem bcn_cycle_transmission_order_witness :
    bcnCycle confW sramW envW 0 20000 =
      (BcnEvent.snapshotRequest ::
        (telemGroupEvents confW ++
         [BcnEvent.transmit
            (aprs_encode_position_and_telemetry confW.call confW.path confW.symbol envW.dp true)
            confW.radio_conf.freq 0 0 confW.radio_conf.pwr confW.radio_conf.mod confW.radio_conf.cca,
          BcnEvent.sleepSeconds 5,
          BcnEvent.transmit
            (aprs_compose_aprsd_message confW.call
              (if sramW.base.enabled then sramW.base.path else confW.path)
              (if sramW.base.enabled then sramW.base.call else confW.call))
            confW.radio_conf.freq 0 0 confW.radio_conf.pwr confW.radio_conf.mod confW.radio_conf.cca,
          BcnEvent.sleepSeconds 5,
          BcnEvent.waitTrigger confW.beacon.cycle]),
       sysAdd 0 sramW.tel_enc_cycle) :=
  bcn_cycle_transmission_order confW sramW envW 0 20000
    rfl rfl (fun i => rfl) (by decide) (by decide) rfl

/-- C3: The intended BMEe2 status shift, BMEI1_STATUS_SHIFT plus twice
BME_STATUS_BITS, equals 12, matching the sys_error documentation (BMEe2 at
bits 12:13), and the three BME slot status masks (i1 at bits 8:9, e1 at
bits 10:11, e2 at bits 12:13) are pairwise disjoint. The macro itself is a
syntax error in the source (collector.h line 23), which is the code bug
this claim reports. -/
theorem bmee2_status_intended_layout :
    BMEE2_STATUS_SHIFT_intended = 12 ∧
    BMEI1_STATUS_MASK = 0x300 ∧
    BMEE1_STATUS_MASK = 0xC00 ∧
    BMEE2_STATUS_MASK_intended = 0x3000 ∧
    BMEI1_STATUS_MASK &&& BMEE1_STATUS_MASK = 0 ∧
    BMEI1_STATUS_MASK &&& BMEE2_STATUS_MASK_intended = 0 ∧
    BMEE1_STATUS_MASK &&& BMEE2_STATUS_MASK_intended = 0 := by
  decide

/-- C4: A beacon cycle that is awake but whose snapshot has no valid
position transmits nothing: the trace is just the snapshot request and the
60-second wait (the loop then continues straight to a fresh snapshot,
skipping run_once and waitForTrigger), no event is a transmission, and
last_conf_transmission is unchanged. -/
theorem bcn_invalid_position_skips_cycle
    (conf : bcn_app_conf_t) (sram : conf_sram_t) (env : CycleEnv) (lc now : Nat)
    (hs : env.sleepActive = false) (hv : isPositionValid env.dp = false) :
    bcnCycle conf sram env lc now =
      ([BcnEvent.snapshotRequest, BcnEvent.sleepSeconds 60], lc) ∧
    ∀ e ∈ (bcnCycle conf sram env lc now).1, isTransmit e = false := by
  have h1 : bcnCycle conf sram env lc now =
      ([BcnEvent.snapshotRequest, BcnEvent.sleepSeconds 60], lc) := by
    rw [bcnCycle]
    simp [hs, hv]
  refine ⟨h1, ?_⟩
  rw [h1]
  intro e he
  fin_cases he <;> rfl

/-- C4 witness: the sample cycle with a GPS-loss snapshot sends nothing and
waits 60 seconds. -/
theorem bcn_invalid_position_skips_cycle_witness :
    bcnCycle confW sramW envInvalidW 7 100 =
      ([BcnEvent.snapshotRequest, BcnEvent.sleepSeconds 60], 7) ∧
    ∀ e ∈ (bcnCycle confW sramW envInvalidW 7 100).1, isTransmit e = false :=
  bcn_invalid_position_skips_cycle confW sramW envInvalidW 7 100 rfl rfl

/-- C7: In an awake cycle with a valid position whose APRSD allocation
succeeds, the trace contains an APRSD transmission whose source is the
beacon's own call sign and whose path and destination come from the base
station configuration when it is enabled and from the beacon's own call and
path otherwise; and an APRSD message never requests an acknowledgment. -/
theorem bcn_aprsd_addressing
    (conf : bcn_app_conf_t) (sram : conf_sram_t) (env : CycleEnv)
    (lc now : Nat) (src path dest : String)
    (hs : env.sleepActive = false) (hv : isPositionValid env.dp = true)
    (ha5 : env.alloc (APRS_NUM_TELEM_GROUPS + 1) = true) :
    BcnEvent.transmit
        (aprs_compose_aprsd_message conf.call
          (if sram.base.enabled then sram.base.path else conf.path)
          (if sram.base.enabled then sram.base.call else conf.call))
        conf.radio_conf.freq 0 0 conf.radio_conf.pwr conf.radio_conf.mod conf.radio_conf.cca
      ∈ (bcnCycle conf sram env lc now).1 ∧
    (aprs_compose_aprsd_message src path dest).ackRequested = false := by
  refine ⟨?_, rfl⟩
  rw [bcnCycle]
  simp [hs, hv, ha5]

/-- C7 witness: the sample cycle with the base station disabled addresses
the APRSD summary to the beacon's own call and path, with no ack request. -/
theorem bcn_aprsd_addressing_witness :
    BcnEvent.transmit
        (aprs_compose_aprsd_message confW.call
          (if sramW.base.enabled then sramW.base.path else confW.path)
          (if sramW.base.enabled then sramW.base.call else confW.call))
        confW.radio_conf.freq 0 0 confW.radio_conf.pwr confW.radio_conf.mod confW.radio_conf.cca
      ∈ (bcnCycle confW sramW envW 0 20000).1 ∧
    (aprs_compose_aprsd_message "DL7AD-12" "WIDE1-1" "DL7AD-12").ackRequested = false :=
  bcn_aprsd_addressing confW sramW envW 0 20000 "DL7AD-12" "WIDE1-1" "DL7AD-12"
    rfl rfl rfl

/-- C9: With tel_enc_cycle zero, no cycle of an entire beacon run ever
emits a telemetry-configuration transmission, from any starting state;
while a transmitting cycle still sends the position packet and the APRSD
message as usual (and leaves last_conf_transmission untouched). -/
theorem bcn_tel_enc_cycle_zero_no_telem_config
    (conf : bcn_app_conf_t) (sram : conf_sram_t)
    (cycles : List (Nat × CycleEnv)) (lc : Nat) (env : CycleEnv) (lc2 now2 : Nat)
    (h : sram.tel_enc_cycle = 0)
    (hs : env.sleepActive = false) (hv : isPositionValid env.dp = true)
    (ha : ∀ i, env.alloc i = true) (hr : conf.run_once = false) :
    (∀ e ∈ bcnRun conf sram cycles lc, isTelemConfTx e = false) ∧
    bcnCycle conf sram env lc2 now2 =
      ([BcnEvent.snapshotRequest,
        BcnEvent.transmit
          (aprs_encode_position_and_telemetry conf.call conf.path conf.symbol env.dp true)
          conf.radio_conf.freq 0 0 conf.radio_conf.pwr conf.radio_conf.mod conf.radio_conf.cca,
        BcnEvent.sleepSeconds 5,
        BcnEvent.transmit
          (aprs_compose_aprsd_message conf.call
            (if sram.base.enabled then sram.base.path else conf.path)
            (if sram.base.enabled then sram.base.call else conf.call))
          conf.radio_conf.freq 0 0 conf.radio_conf.pwr conf.radio_conf.mod conf.radio_conf.cca,
        BcnEvent.sleepSeconds 5,
        BcnEvent.waitTrigger conf.beacon.cycle], lc2) :=
  ⟨bcnRun_tel0_no_telem conf sram cycles lc h,
   bcnCycle_tel0_transmit conf sram env lc2 now2 hs hv ha h hr⟩

/-- C9 witness: a one-cycle run with tel_enc_cycle zero emits no
telemetry-config packet while the transmitting cycle sends position and
APRSD. -/
theorem bcn_tel_enc_cycle_zero_no_telem_config_witness :
    (∀ e ∈ bcnRun confW sramZeroW [(50, envW)] 0, isTelemConfTx e = false) ∧
    bcnCycle confW sramZeroW envW 0 50 =
      ([BcnEvent.snapshotRequest,
        BcnEvent.transmit
          (aprs_encode_position_and_telemetry confW.call confW.path confW.symbol envW.dp true)
          confW.radio_conf.freq 0 0 confW.radio_conf.pwr confW.radio_conf.mod confW.radio_conf.cca,
        BcnEvent.sleepSeconds 5,
        BcnEvent.transmit
          (aprs_compose_aprsd_message confW.call
            (if sramZeroW.base.enabled then sramZeroW.base.path else confW.path)
            (if sramZeroW.base.enabled then sramZeroW.base.call else confW.call))
          confW.radio_conf.freq 0 0 confW.radio_conf.pwr confW.radio_conf.mod confW.radio_conf.cca,
        BcnEvent.sleepSeconds 5,
        BcnEvent.waitTrigger confW.beacon.cycle], 0) :=
  bcn_tel_enc_cycle_zero_no_telem_config confW sramZeroW [(50, envW)] 0 envW 0 50
    rfl rfl rfl (fun i => rfl) rfl

/-- C5: readLog iterates log slots from index 0 upward until getLogBuffer
returns NULL, and prints a record line exactly for those slots whose id
differs from the erased sentinel 0xFFFFFFFF, in slot order; erased slots
produce no output line. -/
theorem readLog_prints_exactly_nonerased_slots (log : List dataPoint_t) :
    readLog log = (log.filter (fun tp => tp.id != 0xFFFFFFFF)).map recordLine := by
  rw [readLog, readLogFrom_eq log log.length 0 (by omega)]
  simp

/-- C6: Resolving a frequency configuration of kind FREQ_STATIC yields
exactly its stored hz field, independently of the geofence resolver (no
getFrequency lookup happens); only the dynamic kind consults
getFrequency. -/
theorem printConfig_static_frequency_resolution
    (g g2 : freq_conf_t → Nat) (hz : Nat) :
    printConfigFrequencyHz g { type := freq_type_t.FREQ_STATIC, hz := hz } = hz ∧
    printConfigFrequencyHz g { type := freq_type_t.FREQ_STATIC, hz := hz } =
      printConfigFrequencyHz g2 { type := freq_type_t.FREQ_STATIC, hz := hz } ∧
    printConfigFrequencyHz g { type := freq_type_t.FREQ_APRS_REGION, hz := hz } =
      g { type := freq_type_t.FREQ_APRS_REGION, hz := hz } :=
  ⟨rfl, rfl, rfl⟩

/-- C8: The compiled default configuration's primary position thread has
cycle 120 seconds, tel_enc_cycle 10800 seconds, call sign DL7AD-12, path
WIDE1-1, AFSK modulation, the dynamic APRS-regional frequency descriptor
and power 0x7F. -/
theorem config_pos_pri_defaults :
    config.pos_pri.thread_conf.cycle = TIME_S2I 120 ∧
    config.pos_pri.tel_enc_cycle = TIME_S2I 10800 ∧
    TIME_S2I 120 = 120 ∧
    TIME_S2I 10800 = 10800 ∧
    config.pos_pri.call = "DL7AD-12" ∧
    config.pos_pri.path = "WIDE1-1" ∧
    config.pos_pri.radio_conf.mod = mod_t.MOD_AFSK ∧
    config.pos_pri.radio_conf.freq = FREQ_APRS_DYNAMIC ∧
    FREQ_APRS_DYNAMIC = FrequencyDescriptor.Dynamic FreqBand.APRS_REGIONAL ∧
    config.pos_pri.radio_conf.pwr = 0x7F := by
  decide

/-- C10: debugOnUSB invoked with zero arguments prints the usage text and
leaves debug_on_usb unchanged, building no packet; send_aprs_message
invoked with fewer than two arguments prints the usage text and issues no
transmission request. -/
theorem cli_missing_args_no_state_change
    (atoi : String → Int) (debug_on_usb : Bool) (cfg : Nat → old_conf_t)
    (args : List String) (hlen : args.length < 2) :
    debugOnUSB atoi debug_on_usb [] =
      (debug_on_usb,
       ["Argument missing!", "Argument 1: 1 for switch on, 0 for switch off"]) ∧
    send_aprs_message cfg args =
      (["Argument missing!", "Argument 1: Destination", "Argument 2: Message"], []) := by
  refine ⟨rfl, ?_⟩
  match args with
  | [] => rfl
  | [a] => rfl
  | a :: b :: rest =>
    simp only [List.length_cons] at hlen
    exact absurd hlen (by omega)

/-- C10 witness: a single-argument call leaves the debug flag untouched
and sends nothing. -/
theorem cli_missing_args_no_state_change_witness :
    debugOnUSB (fun _ => 0) true [] =
      (true,
       ["Argument missing!", "Argument 1: 1 for switch on, 0 for switch off"]) ∧
    send_aprs_message (fun _ => oldConfW) ["APRS"] =
      (["Argument missing!", "Argument 1: Destination", "Argument 2: Message"], []) :=
  cli_missing_args_no_state_change (fun _ => 0) true (fun _ => oldConfW) ["APRS"]
    (by decide)

end Pecan
